import Mathlib

set_option maxRecDepth 100000

/-!
Verification of the Titanic demo repository's core:
the chat query parser and cohort matcher (src/chat/response_generator.py,
src/chat/cohort_patterns.py; app.py carries byte-identical copies of both),
the two sklearn-tree structural converters (backend/models/decision_tree.py
and src/tree_data.py), and the path tracer (src/pages/decision_tree.py).

Numbers are embedded as ℤ / ℚ (all claims depend only on order comparisons
and small-integer arithmetic, which ℚ models exactly); Python `None` becomes
`Option`; a Python exception becomes an `Option` failure of the whole call.
-/

/-! String helpers: Python `pat in s` substring test -/

/-- Test that `pat` is a leading run of `s`. -/
def isStartOf : List Char → List Char → Bool
  | [], _ => true
  | _ :: _, [] => false
  | p :: ps, c :: cs => p == c && isStartOf ps cs

def containsSubAux (pat : List Char) : List Char → Bool
  | [] => isStartOf pat []
  | c :: cs => isStartOf pat (c :: cs) || containsSubAux pat cs

/-- Python `pat in s` on strings (contiguous substring test). -/
def pyIn (pat s : String) : Bool := containsSubAux pat.data s.data

/-- Python `str.lower()` (ASCII is all the repository uses). -/
def pyLower (s : String) : String := String.mk (s.data.map Char.toLower)

/-! The age regex

`re.search(r'\b(\d+)[\s-]*(year|yr|y\.o\.|old)?\b', query_lower)`,
compiled by hand with full backtracking over its three choice points
(the greedy `\d+`, the greedy `[\s-]*`, the optional alternation). -/

/-- Python `\w` for the ASCII inputs at hand. -/
def isWordChar (c : Char) : Bool := c.isAlphanum || c == '_'

/-- Python `\s` (ASCII whitespace). -/
def isSpaceChar (c : Char) : Bool :=
  c == ' ' || c == '\t' || c == '\n' || c == '\r' || c == '\x0b' || c == '\x0c'

def optIsWord : Option Char → Bool
  | none => false
  | some c => isWordChar c

/-- Word boundary `\b` between a previous and a current character (none = string edge). -/
def atBoundary (prev cur : Option Char) : Bool := optIsWord prev != optIsWord cur

def takeDigits : List Char → List Char × List Char
  | [] => ([], [])
  | c :: cs =>
    if c.isDigit then
      let p := takeDigits cs
      (c :: p.1, p.2)
    else ([], c :: cs)

def takeSpaceDash : List Char → List Char × List Char
  | [] => ([], [])
  | c :: cs =>
    if isSpaceChar c || c == '-' then
      let p := takeSpaceDash cs
      (c :: p.1, p.2)
    else ([], c :: cs)

def digitsToNat (cs : List Char) : Nat := cs.foldl (fun n c => 10 * n + (c.toNat - 48)) 0

def altWords : List (List Char) := ["year".data, "yr".data, "y.o.".data, "old".data]

/-- After the digits and the `[\s-]*` run: try each alternative of
`(year|yr|y\.o\.|old)?` in order, then the empty option, each followed by `\b`. -/
def tryAltEnd (prevC : Char) (rest : List Char) : Bool :=
  altWords.any (fun alt =>
    isStartOf alt rest &&
      atBoundary (alt.getLast?.getD prevC) ((rest.drop alt.length).head?)) ||
  atBoundary (some prevC) rest.head?

/-- Backtrack over how much of the `[\s-]*` run is consumed. -/
def trySpacesAndSuffix (prevC : Char) (rest : List Char) : Bool :=
  let p := takeSpaceDash rest
  (List.range (p.1.length + 1)).any (fun k =>
    tryAltEnd ((p.1.take k).getLastD prevC) (p.1.drop k ++ p.2))

/-- Backtrack over how many digits `(\d+)` captures (greedy: longest first);
returns `int(match.group(1))` of the first full success. -/
def findDigitMatch (digits rest : List Char) : Option Nat :=
  (List.range digits.length).findSome? (fun i =>
    let j := digits.length - i
    let taken := digits.take j
    if trySpacesAndSuffix (taken.getLastD '0') (digits.drop j ++ rest) then
      some (digitsToNat taken)
    else none)

/-- Position scan of `re.search`, leftmost match first. -/
def searchAge : Option Char → List Char → Option Nat
  | _, [] => none
  | prev, c :: cs =>
    match
      (if atBoundary prev (some c) then
        match takeDigits (c :: cs) with
        | ([], _) => none
        | (digits, rest) => findDigitMatch digits rest
      else none) with
    | some n => some n
    | none => searchAge (some c) cs

def extractNumericAge (ql : String) : Option Nat := searchAge none ql.data

/-! parse_passenger_query (src/chat/response_generator.py 11-87) -/

structure Profile where
  sex : ℤ
  pclass : ℤ
  age : ℚ
  fare : ℚ
deriving DecidableEq, Repr

def femaleWords : List String := ["woman", "women", "female", "lady", "ladies", "girl"]
def maleWords : List String := ["man", "men", "male", "gentleman", "boy"]

def parseSex (ql : String) : Option ℤ :=
  if femaleWords.any (fun w => pyIn w ql) then some 0
  else if maleWords.any (fun w => pyIn w ql) then some 1
  else none

def class1Phrases : List String := ["1st class", "first class", "upper class", "wealthy", "rich"]
def class2Phrases : List String := ["2nd class", "second class", "middle class"]
def class3Phrases : List String := ["3rd class", "third class", "lower class", "poor", "cheap"]

def parseClass (ql : String) : Option ℤ :=
  if class1Phrases.any (fun w => pyIn w ql) then some 1
  else if class2Phrases.any (fun w => pyIn w ql) then some 2
  else if class3Phrases.any (fun w => pyIn w ql) then some 3
  else none

def childWords : List String := ["child", "children", "kid", "young", "baby", "infant"]
def elderlyWords : List String := ["elderly", "senior", "older", "old"]
def adultWords : List String := ["adult", "middle-aged", "middle aged"]

def parseAge (ql : String) : Option Nat :=
  if childWords.any (fun w => pyIn w ql) then some 8
  else if elderlyWords.any (fun w => pyIn w ql) then some 65
  else if adultWords.any (fun w => pyIn w ql) then some 35
  else extractNumericAge ql

def fareForClass (pclass : Option ℤ) : Option ℚ :=
  if pclass = some 1 then some 84
  else if pclass = some 2 then some 20
  else if pclass = some 3 then some 13
  else none

def parse_passenger_query (query_text : String) : Option Profile :=
  let query_lower := pyLower query_text
  let sex := parseSex query_lower
  let pclass := parseClass query_lower
  let age : ℚ := match parseAge query_lower with
    | some a => (a : ℚ)
    | none => 30
  let fare := fareForClass pclass
  if sex.isNone && pclass.isNone then none
  else
    some { sex := sex.getD 0, pclass := pclass.getD 2, age := age, fare := fare.getD 20 }

example : parse_passenger_query "show me a woman in 1st class" = some ⟨0, 1, 30, 84⟩ := by decide
example : parse_passenger_query "what about a young boy in 3rd" = some ⟨1, 2, 8, 20⟩ := by decide
example : parse_passenger_query "xyz nonsense" = none := by decide
example : parse_passenger_query "a man aged 25" = some ⟨1, 2, 25, 20⟩ := by decide
example : parse_passenger_query "a 25 year old man" = some ⟨1, 2, 65, 20⟩ := by decide

/-! Cohort rule table (src/chat/cohort_patterns.py; identical copy in app.py)

`match_criteria` is a Python dict over the keys `sex`, `pclass`, `age_range`;
an absent key is "do not care". -/

structure MatchCriteria where
  sex : Option ℤ
  pclass : Option ℤ
  age_range : Option (ℚ × ℚ)
deriving DecidableEq, Repr

structure CohortInfo where
  priority : Nat
  match_criteria : MatchCriteria
  response : String
  xgb_response : String
deriving DecidableEq, Repr

def firstClassChildInfo : CohortInfo :=
  { priority := 3
    match_criteria := { sex := none, pclass := some 1, age_range := some (0, 12) }
    response := "First class children had the best odds. Children, especially in 1st and 2nd class, had high survival rates."
    xgb_response := "First class children had the best odds. For the SHAP analysis, I\x27m using this passenger: \x7bpassenger_desc\x7d. The XGBoost tab shows which features strongly pushed this passenger toward survival." }

def thirdClassMaleInfo : CohortInfo :=
  { priority := 2
    match_criteria := { sex := some 1, pclass := some 3, age_range := none }
    response := "Third class males had the worst odds (24% survival rate). They were located furthest from lifeboats and had limited access to the deck."
    xgb_response := "Third class males had the worst odds (24% survival rate). For the SHAP analysis, I\x27m using this passenger: \x7bpassenger_desc\x7d. The XGBoost tab shows which features strongly pushed this passenger toward death." }

def womenInfo : CohortInfo :=
  { priority := 1
    match_criteria := { sex := some 0, pclass := none, age_range := none }
    response := "Women had a 74% survival rate. The \x27women and children first\x27 protocol was largely followed."
    xgb_response := "Women had a 74% survival rate. For the SHAP analysis, I\x27m using this passenger: \x7bpassenger_desc\x7d. The XGBoost tab shows which features pushed this passenger toward survival." }

def menInfo : CohortInfo :=
  { priority := 1
    match_criteria := { sex := some 1, pclass := none, age_range := none }
    response := "Men had only a 19% survival rate (109 survived out of 577)."
    xgb_response := "Men had only a 19% survival rate (109 survived out of 577). For the SHAP analysis, I\x27m using this passenger: \x7bpassenger_desc\x7d. The XGBoost tab shows which features pushed this passenger toward death." }

def firstClassInfo : CohortInfo :=
  { priority := 2
    match_criteria := { sex := none, pclass := some 1, age_range := none }
    response := "First class passengers had a 63% survival rate (136 survived out of 216). Wealth and proximity to lifeboats mattered."
    xgb_response := "First class passengers had a 63% survival rate. Analyzing this passenger: \x7bpassenger_desc\x7d." }

def thirdClassInfo : CohortInfo :=
  { priority := 2
    match_criteria := { sex := none, pclass := some 3, age_range := none }
    response := "Third class passengers had the worst odds (119 survived out of 491, 24% survival rate). They were located furthest from lifeboats."
    xgb_response := "Third class passengers had the worst odds (24% survival rate). Analyzing this passenger: \x7bpassenger_desc\x7d." }

/-- The table in registration (dict insertion) order. -/
def COHORT_PATTERNS : List (String × CohortInfo) :=
  [("first_class_child", firstClassChildInfo),
   ("third_class_male", thirdClassMaleInfo),
   ("women", womenInfo),
   ("men", menInfo),
   ("first_class", firstClassInfo),
   ("third_class", thirdClassInfo)]

/-! match_to_cohort (src/chat/response_generator.py 90-136; app.py 222-268) -/

/-- Stable insert for a descending-by-priority order: `x` goes before the
first element of strictly lower priority (so equal-priority elements that
come later in the original list stay after `x`). -/
def insertDesc (x : String × CohortInfo) : List (String × CohortInfo) → List (String × CohortInfo)
  | [] => [x]
  | y :: ys => if y.2.priority ≤ x.2.priority then x :: y :: ys else y :: insertDesc x ys

/-- Python `sorted(d.items(), key=priority, reverse=True)`: a stable sort,
descending by priority, realised as a stable insertion sort. -/
def sortByPriorityDesc (l : List (String × CohortInfo)) : List (String × CohortInfo) :=
  l.foldr insertDesc []

/-- One pass of the loop body's three `continue` checks (their conjunction). -/
def criteriaMatch (criteria : MatchCriteria) (sex pclass : ℤ) (age : ℚ) : Bool :=
  (match criteria.sex with
    | none => true
    | some s => s == sex) &&
  (match criteria.pclass with
    | none => true
    | some p => p == pclass) &&
  (match criteria.age_range with
    | none => true
    | some r => decide (r.1 ≤ age) && decide (age ≤ r.2))

/-- The Python return value: `(cohort_name, cohort_info)` on a match,
`(None, fallback_dict)` otherwise. -/
inductive MatchResult where
  | matched (name : String) (info : CohortInfo) : MatchResult
  | fallback (response xgb_response : String) : MatchResult
deriving DecidableEq, Repr

def findCohort (sex pclass : ℤ) (age : ℚ) : List (String × CohortInfo) → MatchResult
  | [] =>
    .fallback "Here\x27s the analysis for this passenger profile."
      "Analyzing this passenger: \x7bpassenger_desc\x7d."
  | c :: rest =>
    if criteriaMatch c.2.match_criteria sex pclass age then .matched c.1 c.2
    else findCohort sex pclass age rest

def match_to_cohort (sex pclass : ℤ) (age fare : ℚ) : MatchResult :=
  findCohort sex pclass age (sortByPriorityDesc COHORT_PATTERNS)

example :
    sortByPriorityDesc COHORT_PATTERNS =
      [("first_class_child", firstClassChildInfo),
       ("third_class_male", thirdClassMaleInfo),
       ("first_class", firstClassInfo),
       ("third_class", thirdClassInfo),
       ("women", womenInfo),
       ("men", menInfo)] := by decide
example : match_to_cohort 1 3 40 8 = .matched "third_class_male" thirdClassMaleInfo := by decide
example : match_to_cohort 0 1 5 84 = .matched "first_class_child" firstClassChildInfo := by decide
example : match_to_cohort 0 2 30 20 = .matched "women" womenInfo := by decide

/-! Python numeric / formatting primitives used by the converters -/

/-- Python `int(x)`: truncation toward zero. -/
def pyInt (q : ℚ) : ℤ := if 0 ≤ q then ⌊q⌋ else -⌊-q⌋

/-- Round half to even (Python `round` / `format` tie behaviour). -/
def roundHalfEven (q : ℚ) : ℤ :=
  let n := ⌊q⌋
  if q - n < 1 / 2 then n
  else if 1 / 2 < q - n then n + 1
  else if n % 2 = 0 then n else n + 1

/-- Python `round(x, 3)`. -/
def pyRound3 (q : ℚ) : ℚ := (roundHalfEven (q * 1000) : ℚ) / 1000

/-- Python `f"{x:.kf}"` fixed-point formatting. -/
def formatFixed (k : Nat) (q : ℚ) : String :=
  let m := roundHalfEven (q * (10 ^ k : ℕ))
  let a := m.natAbs
  let ip := a / 10 ^ k
  let fp := a % 10 ^ k
  let fs := toString fp
  (if m < 0 then "-" else "") ++ toString ip ++
    (if k = 0 then "" else "." ++ String.mk (List.replicate (k - fs.length) '0') ++ fs)

/-- Python list indexing `l[i]` (negative indices wrap from the end);
`none` models an `IndexError`. -/
def pyListGet (l : List String) (i : ℤ) : Option String :=
  if 0 ≤ i then l[i.toNat]?
  else if (-i).toNat ≤ l.length then l[l.length - (-i).toNat]? else none

unseal Rat.mul Rat.inv Rat.add Rat.sub Rat.ofScientific in
example : formatFixed 1 (5 / 2) = "2.5" := by decide
unseal Rat.mul Rat.inv Rat.add Rat.sub Rat.ofScientific in
example : formatFixed 2 (5 / 2) = "2.50" := by decide
unseal Rat.mul Rat.inv Rat.add Rat.sub Rat.ofScientific in
example : formatFixed 1 (5 / 100) = "0.0" := by decide
unseal Rat.mul Rat.inv Rat.add Rat.sub Rat.ofScientific in
example : pyInt (-5 / 2) = -2 := by decide
unseal Rat.mul Rat.inv Rat.add Rat.sub Rat.ofScientific in
example : pyRound3 (1 / 3) = 333 / 1000 := by decide

/-! The raw sklearn tree arrays (the `tree.tree_` object)

Per node: `feature` (−2 leaf sentinel), `threshold` (−2.0 at leaves),
`value[node][0]` (the two per-class entries), `n_node_samples`,
`children_left` / `children_right`. Modelled as total functions of the
node index, exactly the fields the converters read. -/

structure RawTree where
  feature : Nat → ℤ
  threshold : Nat → ℚ
  value_0 : Nat → ℚ
  value_1 : Nat → ℚ
  n_node_samples : Nat → Nat
  children_left : Nat → Nat
  children_right : Nat → Nat

/-! The converter output: one nested dict per node -/

structure NodeData where
  id : Nat
  feature : Option String
  threshold : Option ℚ
  samples : Nat
  class_0 : ℤ
  class_1 : ℤ
  predicted_class : Nat
  probability : ℚ
  is_leaf : Bool
  split_rule : String
  left_label : Option String
  right_label : Option String
deriving DecidableEq, Repr

/-- A converted tree: a node dict either without a `children` key or with a
`children` key holding the left/right pair. -/
inductive TreeNode : Type where
  | node (d : NodeData) : TreeNode
  | split (d : NodeData) (l r : TreeNode) : TreeNode
deriving DecidableEq, Repr

def nodesOf : TreeNode → List NodeData
  | .node d => [d]
  | .split d l r => d :: (nodesOf l ++ nodesOf r)

def rootData : TreeNode → NodeData
  | .node d => d
  | .split d _ _ => d

/-- Encoders are a name → classes table (only `sex` exists in the app). -/
def EncoderTable : Type := List (String × List String)

namespace Backend

/-- Backend `sklearn_tree_to_dict` (backend/models/decision_tree.py 85-179):
per-class entries of `value` are raw counts (`int(value[0])`), and `pclass`
splits get the 3-way class-boundary labels. The extra fuel argument bounds
the recursion depth (the Python recursion just assumes an acyclic tree);
`none` models a crash (fuel out, or an `IndexError` on `feature_names`). -/
def sklearn_tree_to_dict (tree : RawTree) (feature_names : List String)
    (label_encoders : EncoderTable) : Nat → Nat → Option TreeNode
  | 0, _ => none
  | fuel + 1, node_id =>
    let threshold := tree.threshold node_id
    let samples := tree.n_node_samples node_id
    let class_0_count := pyInt (tree.value_0 node_id)
    let class_1_count := pyInt (tree.value_1 node_id)
    let predicted_class : Nat := if class_0_count < class_1_count then 1 else 0
    let probability : ℚ :=
      if 0 < samples then pyRound3 ((class_1_count : ℚ) / (samples : ℚ)) else 0
    let thresholdField : Option ℚ := if threshold ≠ -2 then some threshold else none
    if tree.feature node_id = -2 then
      some (.node
        { id := node_id, feature := none, threshold := thresholdField, samples := samples,
          class_0 := class_0_count, class_1 := class_1_count,
          predicted_class := predicted_class, probability := probability, is_leaf := true,
          split_rule := "Predict: " ++ (if predicted_class = 1 then "Survived" else "Died"),
          left_label := none, right_label := none })
    else
      match pyListGet feature_names (tree.feature node_id) with
      | none => none
      | some feature_name =>
        match sklearn_tree_to_dict tree feature_names label_encoders fuel
                (tree.children_left node_id),
              sklearn_tree_to_dict tree feature_names label_encoders fuel
                (tree.children_right node_id) with
        | some leftChild, some rightChild =>
          let labels : Option String × Option String :=
            if label_encoders.any (fun e => e.1 == feature_name) then
              if feature_name == "sex" then (some "female", some "male")
              else (none, none)
            else if feature_name == "pclass" then
              if threshold ≤ 1.5 then (some "1st class", some "2nd & 3rd class")
              else if threshold ≤ 2.5 then (some "1st & 2nd class", some "3rd class")
              else (some ("≤ " ++ formatFixed 1 threshold), some ("> " ++ formatFixed 1 threshold))
            else (some ("≤ " ++ formatFixed 1 threshold), some ("> " ++ formatFixed 1 threshold))
          some (.split
            { id := node_id, feature := some feature_name, threshold := thresholdField,
              samples := samples, class_0 := class_0_count, class_1 := class_1_count,
              predicted_class := predicted_class, probability := probability, is_leaf := false,
              split_rule := feature_name ++ " ≤ " ++ formatFixed 2 threshold,
              left_label := labels.1, right_label := labels.2 }
            leftChild rightChild)
        | _, _ => none

end Backend

namespace TreeData

/-- Streamlit `sklearn_tree_to_dict` (src/tree_data.py 54-126): per-class entries of
`value` are proportions (`int(value[0] * samples)`), and only encoded
features (`sex`, `embarked`) get named labels — `pclass` falls through to
the numeric `≤ / >` labels. -/
def sklearn_tree_to_dict (tree : RawTree) (feature_names : List String)
    (label_encoders : EncoderTable) : Nat → Nat → Option TreeNode
  | 0, _ => none
  | fuel + 1, node_id =>
    let threshold := tree.threshold node_id
    let samples := tree.n_node_samples node_id
    let class_0_count := pyInt (tree.value_0 node_id * (samples : ℚ))
    let class_1_count := pyInt (tree.value_1 node_id * (samples : ℚ))
    let predicted_class : Nat := if class_0_count < class_1_count then 1 else 0
    let probability : ℚ :=
      if 0 < samples then pyRound3 ((class_1_count : ℚ) / (samples : ℚ)) else 0
    let thresholdField : Option ℚ := if threshold ≠ -2 then some threshold else none
    if tree.feature node_id = -2 then
      some (.node
        { id := node_id, feature := none, threshold := thresholdField, samples := samples,
          class_0 := class_0_count, class_1 := class_1_count,
          predicted_class := predicted_class, probability := probability, is_leaf := true,
          split_rule := "Predict: " ++ (if predicted_class = 1 then "Survived" else "Died"),
          left_label := none, right_label := none })
    else
      match pyListGet feature_names (tree.feature node_id) with
      | none => none
      | some feature_name =>
        match sklearn_tree_to_dict tree feature_names label_encoders fuel
                (tree.children_left node_id),
              sklearn_tree_to_dict tree feature_names label_encoders fuel
                (tree.children_right node_id) with
        | some leftChild, some rightChild =>
          let labels : Option String × Option String :=
            if label_encoders.any (fun e => e.1 == feature_name) then
              if feature_name == "sex" then (some "female", some "male")
              else if feature_name == "embarked" then
                let classes := ((label_encoders.lookup feature_name).getD [])
                let left_val := pyInt threshold
                match (if 0 ≤ left_val then classes[left_val.toNat]? else none) with
                | some port => (some ("≤ " ++ port), some ("> " ++ port))
                | none =>
                  (some ("≤ " ++ formatFixed 1 threshold), some ("> " ++ formatFixed 1 threshold))
              else (none, none)
            else (some ("≤ " ++ formatFixed 1 threshold), some ("> " ++ formatFixed 1 threshold))
          some (.split
            { id := node_id, feature := some feature_name, threshold := thresholdField,
              samples := samples, class_0 := class_0_count, class_1 := class_1_count,
              predicted_class := predicted_class, probability := probability, is_leaf := false,
              split_rule := feature_name ++ " ≤ " ++ formatFixed 2 threshold,
              left_label := labels.1, right_label := labels.2 }
            leftChild rightChild)
        | _, _ => none

end TreeData

/-! Concrete conversions used while settling the claims -/

/-- A one-leaf raw tree whose class counts tie (5 died, 5 survived). -/
def tieTree : RawTree :=
  { feature := fun _ => -2, threshold := fun _ => -2, value_0 := fun _ => 5,
    value_1 := fun _ => 5, n_node_samples := fun _ => 10,
    children_left := fun _ => 0, children_right := fun _ => 0 }

def titanicFeatures : List String := ["sex", "pclass", "age", "fare"]

/-- The app's encoder table: only `sex` is label-encoded. -/
def sexEncoders : EncoderTable := [("sex", ["female", "male"])]

/-- The dict the backend converter produces for `tieTree`'s single node. -/
def tieNodeData : NodeData :=
  { id := 0, feature := none, threshold := none, samples := 10, class_0 := 5, class_1 := 5,
    predicted_class := 0, probability := 1 / 2, is_leaf := true,
    split_rule := "Predict: Died", left_label := none, right_label := none }

unseal Rat.mul Rat.inv Rat.add Rat.sub Rat.ofScientific in
example :
    Backend.sklearn_tree_to_dict tieTree titanicFeatures sexEncoders 1 0 =
      some (.node tieNodeData) := by decide

/-- A three-node raw tree splitting on `pclass` at threshold 2.5. -/
def pclassTree : RawTree :=
  { feature := fun n => if n = 0 then 1 else -2,
    threshold := fun n => if n = 0 then 5 / 2 else -2,
    value_0 := fun _ => 3 / 5, value_1 := fun _ => 2 / 5,
    n_node_samples := fun _ => 100,
    children_left := fun _ => 1, children_right := fun _ => 2 }

unseal Rat.mul Rat.inv Rat.add Rat.sub Rat.ofScientific in
example :
    (TreeData.sklearn_tree_to_dict pclassTree titanicFeatures sexEncoders 2 0).map
        (fun t => ((rootData t).left_label, (rootData t).right_label)) =
      some (some "≤ 2.5", some "> 2.5") := by decide

unseal Rat.mul Rat.inv Rat.add Rat.sub Rat.ofScientific in
example :
    (Backend.sklearn_tree_to_dict pclassTree titanicFeatures sexEncoders 2 0).map
        (fun t => ((rootData t).left_label, (rootData t).right_label)) =
      some (some "1st & 2nd class", some "3rd class") := by decide

/-! trace_path (src/pages/decision_tree.py 86-113)

The Python loop appends the current node id, stops at `is_leaf` (or when a
non-leaf dict has no `children` key), otherwise compares
`input_values[feature] <= threshold` and follows `children[0]` / `children[1]`.
A `KeyError` (missing profile feature, or a `None` feature key) and a
`TypeError` (`<=` against a `None` threshold) are modelled as `none`. -/

def trace_path : TreeNode → (String → Option ℚ) → Option (List Nat)
  | .node d, input_values =>
    if d.is_leaf then some [d.id]
    else
      match d.feature with
      | none => none
      | some f =>
        match input_values f with
        | none => none
        | some _ =>
          match d.threshold with
          | none => none
          | some _ => some [d.id]
  | .split d l r, input_values =>
    if d.is_leaf then some [d.id]
    else
      match d.feature with
      | none => none
      | some f =>
        match input_values f with
        | none => none
        | some v =>
          match d.threshold with
          | none => none
          | some threshold =>
            if v ≤ threshold then (trace_path l input_values).map (fun p => d.id :: p)
            else (trace_path r input_values).map (fun p => d.id :: p)

/-- Structural sanity of a converted tree (what §3 of the spec's data model
guarantees): the `is_leaf` flag agrees with the presence of `children`, and
internal nodes carry a feature name and a threshold. -/
def WellFormed : TreeNode → Bool
  | .node d => d.is_leaf
  | .split d l r =>
    !d.is_leaf && d.feature.isSome && d.threshold.isSome && WellFormed l && WellFormed r

/-- Every feature name appearing anywhere in the tree. -/
def featuresOf : TreeNode → List String
  | .node d => d.feature.toList
  | .split d l r => d.feature.toList ++ (featuresOf l ++ featuresOf r)

def isLeafFlag : TreeNode → Bool
  | .node d => d.is_leaf
  | .split d _ _ => d.is_leaf

/-- The descent relation of the claimed algorithm: the path goes to
`children[0]` exactly when `profile[feature] ≤ threshold`, to `children[1]`
otherwise, and stops at a leaf. -/
inductive DescentPath (input_values : String → Option ℚ) : TreeNode → List Nat → Prop where
  | stop (t : TreeNode) : isLeafFlag t = true → DescentPath input_values t [(rootData t).id]
  | goLeft (d : NodeData) (l r : TreeNode) (f : String) (v threshold : ℚ) (p : List Nat) :
      d.is_leaf = false → d.feature = some f → input_values f = some v →
      d.threshold = some threshold → v ≤ threshold →
      DescentPath input_values l p → DescentPath input_values (.split d l r) (d.id :: p)
  | goRight (d : NodeData) (l r : TreeNode) (f : String) (v threshold : ℚ) (p : List Nat) :
      d.is_leaf = false → d.feature = some f → input_values f = some v →
      d.threshold = some threshold → ¬ v ≤ threshold →
      DescentPath input_values r p → DescentPath input_values (.split d l r) (d.id :: p)

/-! Claim theorems: parser and cohort matcher -/

/-- C8: `parse_passenger_query "show me a woman in 1st class"` yields the
profile sex 0, pclass 1, age 30, fare 84.0 — in particular the digit of
"1st" is rejected by the regex (no word boundary between "1" and "st"),
so the age falls back to the default 30. -/
theorem woman_in_first_class_parse :
    parse_passenger_query "show me a woman in 1st class" = some ⟨0, 1, 30, 84⟩ := by decide

/-- C2 (the claim describes the docstring, not the code): on
"what about a young boy in 3rd" the class scan finds none of its phrases
("3rd" alone is not "3rd class"), so pclass defaults to 2 and fare to 20.0;
the code returns sex 1, pclass 2, age 8, fare 20.0 instead of the documented
sex 1, pclass 3, age 8, fare 13.0. -/
theorem young_boy_in_3rd_parse_eval :
    parse_passenger_query "what about a young boy in 3rd" = some ⟨1, 2, 8, 20⟩ := by decide

/-- C6: on the profile sex 1, pclass 3, age 40, fare 8 the matcher returns
"third_class_male": the sort is a stable descending sort, so among the
priority-2 rules the earlier-registered sex+pclass rule is checked first. -/
theorem third_class_male_scenario :
    match_to_cohort 1 3 40 8 = .matched "third_class_male" thirdClassMaleInfo := by decide

/-- C10: `match_to_cohort` never reads its `fare` argument, so any two fares
give identical results (both the chat module's copy and app.py's copy have
the same body). -/
theorem match_to_cohort_ignores_fare (sex pclass : ℤ) (age f1 f2 : ℚ) :
    match_to_cohort sex pclass age f1 = match_to_cohort sex pclass age f2 := rfl

/-- The sorted rule order the matcher iterates: priority 3, then the three
priority-2 rules in registration order, then the priority-1 rules. -/
theorem sorted_cohorts_eq :
    sortByPriorityDesc COHORT_PATTERNS =
      [("first_class_child", firstClassChildInfo),
       ("third_class_male", thirdClassMaleInfo),
       ("first_class", firstClassInfo),
       ("third_class", thirdClassInfo),
       ("women", womenInfo),
       ("men", menInfo)] := by decide

/-- C5: every profile with sex 0, pclass 1 and age in [0, 12] (any fare)
matches "first_class_child", although "women" and "first_class" also
structurally match — the priority-3 rule is checked first. -/
theorem first_class_child_wins_priority (age fare : ℚ) (h0 : 0 ≤ age) (h12 : age ≤ 12) :
    match_to_cohort 0 1 age fare = .matched "first_class_child" firstClassChildInfo := by
  unfold match_to_cohort
  rw [sorted_cohorts_eq]
  simp [findCohort, criteriaMatch, firstClassChildInfo, h0, h12]

theorem first_class_child_wins_priority_witness :
    (0 : ℚ) ≤ 7 ∧ (7 : ℚ) ≤ 12 ∧
      match_to_cohort 0 1 7 84 = .matched "first_class_child" firstClassChildInfo :=
  ⟨by decide, by decide, first_class_child_wins_priority 7 84 (by decide) (by decide)⟩

/-- C9: the age range criterion is inclusive on both ends — with pclass 1,
age 12 still matches "first_class_child", while age 13 (any sex, any fare)
falls through to "first_class" instead. -/
theorem age_range_inclusive_boundary (sex : ℤ) (fare : ℚ) :
    match_to_cohort sex 1 12 fare = .matched "first_class_child" firstClassChildInfo ∧
      match_to_cohort sex 1 13 fare = .matched "first_class" firstClassInfo := by
  constructor
  · unfold match_to_cohort
    rw [sorted_cohorts_eq]
    simp [findCohort, criteriaMatch, firstClassChildInfo]
  · unfold match_to_cohort
    rw [sorted_cohorts_eq]
    simp [findCohort, criteriaMatch, firstClassChildInfo, thirdClassMaleInfo, firstClassInfo]
    norm_num

/-- C4: the parser rejects exactly when both the sex scan and the class scan
fail; a returned profile fills unknown fields with sex 0, pclass 2,
fare 20.0, and age 30 when no age signal was found. -/
theorem parse_gate_and_defaults (q : String) :
    (parse_passenger_query q = none ↔
      parseSex (pyLower q) = none ∧ parseClass (pyLower q) = none) ∧
    ∀ p, parse_passenger_query q = some p →
      (parseSex (pyLower q) = none → p.sex = 0) ∧
      (parseClass (pyLower q) = none → p.pclass = 2 ∧ p.fare = 20) ∧
      (parseAge (pyLower q) = none → p.age = 30) := by
  unfold parse_passenger_query
  rcases hs : parseSex (pyLower q) with _ | s <;>
    rcases hc : parseClass (pyLower q) with _ | c <;>
      rcases ha : parseAge (pyLower q) with _ | a <;>
        simp [hs, hc, ha, fareForClass] <;>
          rintro p rfl <;> simp

theorem parse_gate_and_defaults_witness :
    parse_passenger_query "a woman" = some ⟨0, 2, 30, 20⟩ ∧
      (⟨0, 2, 30, 20⟩ : Profile).pclass = 2 ∧ (⟨0, 2, 30, 20⟩ : Profile).fare = 20 ∧
      (⟨0, 2, 30, 20⟩ : Profile).age = 30 := by
  have h := (parse_gate_and_defaults "a woman").2 ⟨0, 2, 30, 20⟩ (by decide)
  exact ⟨by decide, (h.2.1 (by decide)).1, (h.2.1 (by decide)).2, h.2.2 (by decide)⟩

/-! Claim theorem: the path tracer -/

/-- C7: on a well-formed converted tree whose features are all present in
the profile, `trace_path` succeeds with a non-empty id list that starts at
the root, ends at a leaf, and descends to `children[0]` exactly when
`profile[feature] ≤ threshold` (the `DescentPath` relation). -/
theorem trace_path_root_to_leaf (t : TreeNode) (input_values : String → Option ℚ)
    (hwf : WellFormed t = true)
    (hcov : ∀ f ∈ featuresOf t, (input_values f).isSome = true) :
    ∃ p, trace_path t input_values = some p ∧ p ≠ [] ∧
      p.head? = some (rootData t).id ∧
      (∃ d ∈ nodesOf t, d.is_leaf = true ∧ p.getLast? = some d.id) ∧
      DescentPath input_values t p := by
  induction t with
  | node d =>
    have hl : d.is_leaf = true := by simpa [WellFormed] using hwf
    refine ⟨[d.id], by simp [trace_path, hl], by simp, by simp [rootData], ?_, ?_⟩
    · exact ⟨d, by simp [nodesOf], hl, by simp⟩
    · have h := @DescentPath.stop input_values (TreeNode.node d)
        (by simpa [isLeafFlag] using hl)
      simpa [rootData] using h
  | split d l r ihl ihr =>
    simp only [WellFormed, Bool.and_eq_true, Bool.not_eq_true'] at hwf
    obtain ⟨⟨⟨⟨hleaf, hfeat⟩, hthr⟩, hwl⟩, hwr⟩ := hwf
    obtain ⟨f, hf⟩ := Option.isSome_iff_exists.mp hfeat
    obtain ⟨thr, hth⟩ := Option.isSome_iff_exists.mp hthr
    have hivf : (input_values f).isSome = true :=
      hcov f (by simp [featuresOf, hf])
    obtain ⟨v, hv⟩ := Option.isSome_iff_exists.mp hivf
    by_cases hvt : v ≤ thr
    · obtain ⟨p, hp, hne, hhead, ⟨dl, hdl, hdleaf, hlast⟩, hdesc⟩ :=
        ihl hwl (fun g hg => hcov g (by simp [featuresOf]; exact Or.inr (Or.inl hg)))
      refine ⟨d.id :: p, ?_, by simp, by simp [rootData], ?_, ?_⟩
      · simp [trace_path, hleaf, hf, hv, hth, hvt, hp]
      · refine ⟨dl, by simp [nodesOf]; exact Or.inr (Or.inl hdl), hdleaf, ?_⟩
        obtain ⟨x, xs, rfl⟩ := List.exists_cons_of_ne_nil hne
        simpa [List.getLast?_cons_cons] using hlast
      · exact DescentPath.goLeft d l r f v thr p hleaf hf hv hth hvt hdesc
    · obtain ⟨p, hp, hne, hhead, ⟨dr, hdr, hdrleaf, hlast⟩, hdesc⟩ :=
        ihr hwr (fun g hg => hcov g (by simp [featuresOf]; exact Or.inr (Or.inr hg)))
      refine ⟨d.id :: p, ?_, by simp, by simp [rootData], ?_, ?_⟩
      · simp [trace_path, hleaf, hf, hv, hth, hvt, hp]
      · refine ⟨dr, by simp [nodesOf]; exact Or.inr (Or.inr hdr), hdrleaf, ?_⟩
        obtain ⟨x, xs, rfl⟩ := List.exists_cons_of_ne_nil hne
        simpa [List.getLast?_cons_cons] using hlast
      · exact DescentPath.goRight d l r f v thr p hleaf hf hv hth hvt hdesc

/-- A small well-formed tree: an age-10 split over two leaves. -/
def demoLeafL : NodeData :=
  { id := 1, feature := none, threshold := none, samples := 4, class_0 := 1, class_1 := 3,
    predicted_class := 1, probability := 3 / 4, is_leaf := true,
    split_rule := "Predict: Survived", left_label := none, right_label := none }

def demoLeafR : NodeData :=
  { id := 2, feature := none, threshold := none, samples := 6, class_0 := 4, class_1 := 2,
    predicted_class := 0, probability := 1 / 3, is_leaf := true,
    split_rule := "Predict: Died", left_label := none, right_label := none }

def demoRoot : NodeData :=
  { id := 0, feature := some "age", threshold := some 10, samples := 10, class_0 := 5,
    class_1 := 5, predicted_class := 0, probability := 1 / 2, is_leaf := false,
    split_rule := "age ≤ 10.00", left_label := some "≤ 10.0", right_label := some "> 10.0" }

def demoTree : TreeNode := .split demoRoot (.node demoLeafL) (.node demoLeafR)

def demoProfile : String → Option ℚ := fun f => if f = "age" then some 30 else none

theorem trace_path_root_to_leaf_witness :
    ∃ p, trace_path demoTree demoProfile = some p ∧ p ≠ [] ∧
      p.head? = some (rootData demoTree).id ∧
      (∃ d ∈ nodesOf demoTree, d.is_leaf = true ∧ p.getLast? = some d.id) ∧
      DescentPath demoProfile demoTree p :=
  trace_path_root_to_leaf demoTree demoProfile (by decide) (by decide)

/-! Claim theorems: predicted class of the converters -/

/-- Per-node invariant of the backend converter: `predicted_class` is 1
exactly when the survived count strictly exceeds the died count. -/
theorem backend_predicted_spec (tree : RawTree) (names : List String) (encs : EncoderTable) :
    ∀ fuel nid T, Backend.sklearn_tree_to_dict tree names encs fuel nid = some T →
      ∀ d ∈ nodesOf T, d.predicted_class = if d.class_0 < d.class_1 then 1 else 0 := by
  intro fuel
  induction fuel with
  | zero => intro nid T h; simp [Backend.sklearn_tree_to_dict] at h
  | succ fuel ih =>
    intro nid T h
    simp only [Backend.sklearn_tree_to_dict] at h
    by_cases hleaf : tree.feature nid = -2
    · rw [if_pos hleaf] at h
      cases h
      intro d hd
      simp [nodesOf] at hd
      subst hd
      simp
    · rw [if_neg hleaf] at h
      rcases hname : pyListGet names (tree.feature nid) with _ | fname <;> rw [hname] at h
      · simp at h
      · rcases hL : Backend.sklearn_tree_to_dict tree names encs fuel (tree.children_left nid)
            with _ | lt <;> rw [hL] at h
        · simp at h
        · rcases hR : Backend.sklearn_tree_to_dict tree names encs fuel (tree.children_right nid)
              with _ | rt <;> rw [hR] at h
          · simp at h
          · cases h
            intro d hd
            simp [nodesOf] at hd
            rcases hd with hd | hd | hd
            · subst hd; simp
            · exact ih _ lt hL d hd
            · exact ih _ rt hR d hd

/-- Per-node invariant of the Streamlit converter: same majority rule. -/
theorem treedata_predicted_spec (tree : RawTree) (names : List String) (encs : EncoderTable) :
    ∀ fuel nid T, TreeData.sklearn_tree_to_dict tree names encs fuel nid = some T →
      ∀ d ∈ nodesOf T, d.predicted_class = if d.class_0 < d.class_1 then 1 else 0 := by
  intro fuel
  induction fuel with
  | zero => intro nid T h; simp [TreeData.sklearn_tree_to_dict] at h
  | succ fuel ih =>
    intro nid T h
    simp only [TreeData.sklearn_tree_to_dict] at h
    by_cases hleaf : tree.feature nid = -2
    · rw [if_pos hleaf] at h
      cases h
      intro d hd
      simp [nodesOf] at hd
      subst hd
      simp
    · rw [if_neg hleaf] at h
      rcases hname : pyListGet names (tree.feature nid) with _ | fname <;> rw [hname] at h
      · simp at h
      · rcases hL : TreeData.sklearn_tree_to_dict tree names encs fuel (tree.children_left nid)
            with _ | lt <;> rw [hL] at h
        · simp at h
        · rcases hR : TreeData.sklearn_tree_to_dict tree names encs fuel (tree.children_right nid)
              with _ | rt <;> rw [hR] at h
          · simp at h
          · cases h
            intro d hd
            simp [nodesOf] at hd
            rcases hd with hd | hd | hd
            · subst hd; simp
            · exact ih _ lt hL d hd
            · exact ih _ rt hR d hd

unseal Rat.mul Rat.inv Rat.add Rat.sub Rat.ofScientific in
/-- C1 counterexample: a node whose died count equals its survived count
(5 and 5) gets `predicted_class = 0`, not 1 — `1 if class_1 > class_0
else 0` sends ties to "died". -/
theorem predictedClass_tie_not_survived_cex :
    Backend.sklearn_tree_to_dict tieTree titanicFeatures sexEncoders 1 0 =
        some (.node tieNodeData) ∧
      tieNodeData.class_0 = tieNodeData.class_1 ∧ tieNodeData.predicted_class = 0 ∧
      ¬ tieNodeData.predicted_class = 1 := by decide

/-- C1 (amended): in both converters, `predicted_class` is the majority
class with ties broken toward DIED — every node whose two class counts are
equal has `predicted_class = 0`. -/
theorem predictedClass_majority_ties_died (tree : RawTree) (names : List String)
    (encs : EncoderTable) (fuel nid : Nat) (T : TreeNode)
    (h : Backend.sklearn_tree_to_dict tree names encs fuel nid = some T ∨
         TreeData.sklearn_tree_to_dict tree names encs fuel nid = some T) :
    ∀ d ∈ nodesOf T, (d.class_0 = d.class_1 → d.predicted_class = 0) ∧
      d.predicted_class = if d.class_0 < d.class_1 then 1 else 0 := by
  intro d hd
  have hspec : d.predicted_class = if d.class_0 < d.class_1 then 1 else 0 := by
    cases h with
    | inl hb => exact backend_predicted_spec tree names encs fuel nid T hb d hd
    | inr ht => exact treedata_predicted_spec tree names encs fuel nid T ht d hd
  refine ⟨fun hEq => ?_, hspec⟩
  rw [hspec, if_neg (by rw [hEq]; exact lt_irrefl _)]

unseal Rat.mul Rat.inv Rat.add Rat.sub Rat.ofScientific in
theorem predictedClass_majority_ties_died_witness : tieNodeData.predicted_class = 0 := by
  have h := predictedClass_majority_ties_died tieTree titanicFeatures sexEncoders 1 0
    (.node tieNodeData) (Or.inl (by decide)) tieNodeData (by decide)
  exact h.1 (by decide)

/-! Claim theorems: pclass branch labels -/

/-- C3 (amended): the 3-way class-boundary convention holds for the BACKEND
converter (backend/models/decision_tree.py) whenever `pclass` is not among
the label encoders (it never is — only `sex` is encoded): threshold ≤ 1.5
gives "1st class" / "2nd & 3rd class", 1.5 < threshold ≤ 2.5 gives
"1st & 2nd class" / "3rd class", anything else the numeric labels. The
Streamlit converter (src/tree_data.py) does NOT implement the convention —
see the counterexample. -/
theorem backend_pclass_branch_labels (tree : RawTree) (names : List String)
    (encs : EncoderTable) (henc : encs.any (fun e => e.1 == "pclass") = false) :
    ∀ fuel nid T, Backend.sklearn_tree_to_dict tree names encs fuel nid = some T →
      ∀ d ∈ nodesOf T, d.feature = some "pclass" → ∀ thr, d.threshold = some thr →
        ((thr ≤ 1.5 → d.left_label = some "1st class" ∧
            d.right_label = some "2nd & 3rd class") ∧
         (1.5 < thr → thr ≤ 2.5 → d.left_label = some "1st & 2nd class" ∧
            d.right_label = some "3rd class") ∧
         (2.5 < thr → d.left_label = some ("≤ " ++ formatFixed 1 thr) ∧
            d.right_label = some ("> " ++ formatFixed 1 thr))) := by
  intro fuel
  induction fuel with
  | zero => intro nid T h; simp [Backend.sklearn_tree_to_dict] at h
  | succ fuel ih =>
    intro nid T h
    simp only [Backend.sklearn_tree_to_dict] at h
    by_cases hleaf : tree.feature nid = -2
    · rw [if_pos hleaf] at h
      cases h
      intro d hd hf
      simp [nodesOf] at hd
      subst hd
      simp at hf
    · rw [if_neg hleaf] at h
      rcases hname : pyListGet names (tree.feature nid) with _ | fname <;> rw [hname] at h
      · simp at h
      · rcases hL : Backend.sklearn_tree_to_dict tree names encs fuel (tree.children_left nid)
            with _ | lt <;> rw [hL] at h
        · simp at h
        · rcases hR : Backend.sklearn_tree_to_dict tree names encs fuel (tree.children_right nid)
              with _ | rt <;> rw [hR] at h
          · simp at h
          · cases h
            intro d hd hf thr hthr
            simp [nodesOf] at hd
            rcases hd with hd | hd | hd
            · subst hd
              simp only [Option.some.injEq] at hf
              subst hf
              by_cases ht2 : tree.threshold nid = -2
              · simp [ht2] at hthr
              · simp only [if_neg ht2, Option.some.injEq] at hthr
                subst hthr
                refine ⟨fun hle => by simp [henc, hle], fun hgt hle2 => ?_, fun hgt2 => ?_⟩
                · simp [henc, not_le.mpr hgt, hle2]
                · have h1 : ¬ tree.threshold nid ≤ 1.5 :=
                    not_le.mpr (lt_trans (by norm_num) hgt2)
                  have h2 : ¬ tree.threshold nid ≤ 2.5 := not_le.mpr hgt2
                  simp [henc, h1, h2]
            · exact ih _ lt hL d hd hf thr hthr
            · exact ih _ rt hR d hd hf thr hthr

unseal Rat.mul Rat.inv Rat.add Rat.sub Rat.ofScientific in
/-- C3 counterexample: the Streamlit converter (src/tree_data.py), which the
claim also cites, has no pclass branch at all — a pclass split at threshold
2.5 (inside the 1.5 < t ≤ 2.5 band of the convention) gets the numeric
labels "≤ 2.5" / "> 2.5" instead of "1st & 2nd class" / "3rd class". -/
theorem pclass_labels_streamlit_numeric_cex :
    (TreeData.sklearn_tree_to_dict pclassTree titanicFeatures sexEncoders 2 0).map
        (fun t => ((rootData t).feature, (rootData t).threshold,
          (rootData t).left_label, (rootData t).right_label)) =
      some (some "pclass", some (5 / 2), some "≤ 2.5", some "> 2.5") ∧
    (some "≤ 2.5" : Option String) ≠ some "1st & 2nd class" ∧
    ((5 / 2 : ℚ) ≤ 2.5 ∧ ¬ (5 / 2 : ℚ) ≤ 1.5) := by decide

def pclassBackendLeaf (i : Nat) : NodeData :=
  { id := i, feature := none, threshold := none, samples := 100, class_0 := 0, class_1 := 0,
    predicted_class := 0, probability := 0, is_leaf := true, split_rule := "Predict: Died",
    left_label := none, right_label := none }

def pclassBackendRoot : NodeData :=
  { id := 0, feature := some "pclass", threshold := some (5 / 2), samples := 100,
    class_0 := 0, class_1 := 0, predicted_class := 0, probability := 0, is_leaf := false,
    split_rule := "pclass ≤ 2.50", left_label := some "1st & 2nd class",
    right_label := some "3rd class" }

unseal Rat.mul Rat.inv Rat.add Rat.sub Rat.ofScientific in
theorem backend_pclass_branch_labels_witness :
    pclassBackendRoot.left_label = some "1st & 2nd class" ∧
      pclassBackendRoot.right_label = some "3rd class" := by
  have h := backend_pclass_branch_labels pclassTree titanicFeatures sexEncoders (by decide) 2 0
    (.split pclassBackendRoot (.node (pclassBackendLeaf 1)) (.node (pclassBackendLeaf 2)))
    (by decide) pclassBackendRoot (by decide) (by decide) (5 / 2) (by decide)
  exact h.2.1 (by norm_num) (by norm_num)

theorem age_range_inclusive_boundary_witness :
    match_to_cohort 0 1 12 84 = .matched "first_class_child" firstClassChildInfo ∧
      match_to_cohort 0 1 13 84 = .matched "first_class" firstClassInfo :=
  age_range_inclusive_boundary 0 84

theorem match_to_cohort_ignores_fare_witness :
    match_to_cohort 1 3 40 8 = match_to_cohort 1 3 40 500 :=
  match_to_cohort_ignores_fare 1 3 40 8 500

/-- Bridge for the Path Tracer claim: the backend converter only produces
well-formed trees, as long as the raw model keeps the −2 threshold filler
to leaves (sklearn always does: internal nodes carry a real split value). -/
theorem backend_wellFormed (tree : RawTree) (names : List String) (encs : EncoderTable)
    (hthr : ∀ n, tree.feature n ≠ -2 → tree.threshold n ≠ -2) :
    ∀ fuel nid T, Backend.sklearn_tree_to_dict tree names encs fuel nid = some T →
      WellFormed T = true := by
  intro fuel
  induction fuel with
  | zero => intro nid T h; simp [Backend.sklearn_tree_to_dict] at h
  | succ fuel ih =>
    intro nid T h
    simp only [Backend.sklearn_tree_to_dict] at h
    by_cases hleaf : tree.feature nid = -2
    · rw [if_pos hleaf] at h
      cases h
      simp [WellFormed]
    · rw [if_neg hleaf] at h
      rcases hname : pyListGet names (tree.feature nid) with _ | fname <;> rw [hname] at h
      · simp at h
      · rcases hL : Backend.sklearn_tree_to_dict tree names encs fuel (tree.children_left nid)
            with _ | lt <;> rw [hL] at h
        · simp at h
        · rcases hR : Backend.sklearn_tree_to_dict tree names encs fuel (tree.children_right nid)
              with _ | rt <;> rw [hR] at h
          · simp at h
          · cases h
            simp [WellFormed, ih _ lt hL, ih _ rt hR, hthr nid hleaf]
